import Mathlib

/-!
# Verification of the InsightX synthetic transaction-data generator

This file is a shallow embedding of `src/utils/data_generator.py`
(class `MockDataGenerator`) and proofs of the specification's claims
about it.

Randomness model: every call to the Python RNG (`random.randint`,
`random.choices`, `random.choice`, `random.random`,
`np.random.lognormal`) is modelled as an explicit input consumed by the
corresponding function.  A categorical draw is represented by the index
it selects (an arbitrary `Nat`, reduced modulo the list length — every
index below the length occurs with positive probability since all
weight tables in the source are positive); `random.random` is an
arbitrary rational (its support is `[0,1)` but no claim needs the
bound); the log-normal draw is an arbitrary rational (its parameters
shape the distribution only — the clipping that follows decides every
claim about ranges).  Python `float`s are modelled as exact rationals.
`uuid.uuid4().hex[:12].upper()` and `datetime.now()` are *not* driven
by the seeded RNG stream in the source, so they are modelled as
separate per-record environment inputs (`uuidHex`, `now`).

Timestamps are modelled as naive local-time seconds since an epoch
whose day 0 is a Thursday (1970-01-01), matching Python's
`datetime.weekday()` convention Monday = 0 … Sunday = 6; `datetime`
arithmetic with `timedelta` is exact on this representation, and the
sub-second part of `datetime.now()` affects no derived field.
-/

namespace InsightX

/-- Model of `random.choice(seq)` / the element a categorical draw selects:
the raw drawn index `i` reduced into `[0, seq.length)`. -/
def pychoice (l : List String) (i : Nat) : String :=
  l.getD (i % l.length) ""

/-- Binary `min` (kernel-executable on `ℚ`). -/
def pymin (a b : ℚ) : ℚ := if a ≤ b then a else b

/-- Binary `max` (kernel-executable on `ℚ`). -/
def pymax (a b : ℚ) : ℚ := if a ≤ b then b else a

/-- Model of `np.clip(x, lo, hi)` (for `lo ≤ hi`). -/
def pyclip (x lo hi : ℚ) : ℚ := pymin (pymax x lo) hi

/-- Python `round` to an integer: round half to even (banker's rounding).
`Rat.floor` is the executable floor; it equals `⌊y⌋`. -/
def roundHalfToEven (y : ℚ) : ℤ :=
  if y - y.floor < mkRat 1 2 then y.floor
  else if mkRat 1 2 < y - y.floor then y.floor + 1
  else if y.floor % 2 = 0 then y.floor else y.floor + 1

/-- Python `round(x, 2)`: the rounded hundredths, divided by 100
(`mkRat` is the kernel-executable division). -/
def round2 (x : ℚ) : ℚ := mkRat (roundHalfToEven (100 * x)) 100

/-! ## Static configuration tables of `MockDataGenerator` -/

def TRANSACTION_TYPES : List String := ["P2P", "P2M", "Bill Payment", "Recharge"]

def TRANSACTION_TYPE_WEIGHTS : List ℚ := [0.35, 0.35, 0.20, 0.10]

def MERCHANT_CATEGORIES : List String :=
  ["Food", "Grocery", "Fuel", "Entertainment", "Utilities"]

/-- Model of `MERCHANT_CATEGORY_BY_TYPE` dict; `none` models a missing key. -/
def MERCHANT_CATEGORY_BY_TYPE (transaction_type : String) : Option (List String) :=
  if transaction_type = "P2M" then some ["Food", "Grocery", "Fuel", "Entertainment"]
  else if transaction_type = "Bill Payment" then some ["Utilities"]
  else if transaction_type = "Recharge" then some ["Utilities"]
  else none

def AGE_GROUPS : List String := ["18-25", "26-35", "36-45", "46-55", "56+"]

def AGE_GROUP_WEIGHTS : List ℚ := [0.25, 0.35, 0.20, 0.12, 0.08]

def INDIAN_STATES : List String :=
  ["Maharashtra", "Karnataka", "Tamil Nadu", "Delhi", "Gujarat",
   "Rajasthan", "Uttar Pradesh", "West Bengal", "Telangana", "Kerala"]

def STATE_WEIGHTS : List ℚ := [0.18, 0.15, 0.12, 0.12, 0.10, 0.08, 0.08, 0.07, 0.06, 0.04]

def BANKS : List String := ["SBI", "HDFC", "ICICI", "Axis", "Yes Bank"]

def BANK_WEIGHTS : List ℚ := [0.30, 0.25, 0.20, 0.15, 0.10]

def DEVICE_TYPES : List String := ["Android", "iOS", "Web"]

def DEVICE_WEIGHTS : List ℚ := [0.60, 0.30, 0.10]

def NETWORK_TYPES : List String := ["4G", "5G", "WiFi"]

def NETWORK_WEIGHTS : List ℚ := [0.50, 0.30, 0.20]

/-- Model of `AMOUNT_RANGES` dict: `{device_type → (min, max)}`; the `.get`
default `(10.0, 25000.0)` used in `_generate_amount` is the fallback. -/
def AMOUNT_RANGES (device_type : String) : ℚ × ℚ :=
  if device_type = "Android" then (10, 25000)
  else if device_type = "iOS" then (50, 45000)
  else if device_type = "Web" then (100, 75000)
  else (10, 25000)

/-- Model of `0.05` (5% baseline), as the exact rational 5/100. -/
def BASE_FAILURE_RATE : ℚ := mkRat 5 100

/-- Model of `0.20` (20% for Bill Payment on weekends), as the exact rational 20/100. -/
def WEEKEND_BILLPAY_FAILURE_RATE : ℚ := mkRat 20 100

/-- Model of `0.02` (2% baseline), as the exact rational 2/100. -/
def BASE_FRAUD_RATE : ℚ := mkRat 2 100

/-- Model of `0.10` (10% for amounts above 50,000), as the exact rational 10/100. -/
def HIGH_VALUE_FRAUD_RATE : ℚ := mkRat 10 100

def HIGH_VALUE_THRESHOLD : ℚ := 50000

/-! ## Per-record randomness and environment -/

/-- One record's worth of seeded RNG draws, in the order
`generate_single_transaction` makes them (a branch that skips a draw
simply ignores the corresponding field). -/
structure Draws where
  tsRand : Nat
  txTypeIdx : Nat
  deviceIdx : Nat
  amountRaw : ℚ
  statusU : ℚ
  merchantIdx : Nat
  senderAgeIdx : Nat
  receiverAgeIdx : Nat
  stateIdx : Nat
  senderBankIdx : Nat
  receiverBankIdx : Nat
  networkIdx : Nat
  fraudU : ℚ
deriving DecidableEq

/-- Everything one call of `generate_single_transaction` consumes:
the wall clock (`datetime.now()`, seconds), the 12 uppercase hex
characters drawn by `uuid.uuid4().hex[:12].upper()` (not seeded by
`random.seed`/`np.random.seed`), and the seeded draws. -/
structure RecordEnv where
  now : Nat
  uuidHex : String
  d : Draws
deriving DecidableEq

/-- One row of the generated table (`generate_single_transaction`'s dict). -/
structure Row where
  transaction_id : String
  timestamp : Nat
  transaction_type : String
  merchant_category : Option String
  amount_inr : ℚ
  transaction_status : String
  sender_age_group : String
  receiver_age_group : Option String
  sender_state : String
  sender_bank : String
  receiver_bank : String
  device_type : String
  network_type : String
  fraud_flag : Nat
  hour_of_day : Nat
  day_of_week : String
  is_weekend : Nat
deriving DecidableEq

/-! ## The generator's methods -/

/-- Model of `_generate_transaction_id`: `"TXN" + uuid4().hex[:12].upper()`;
the (unseeded) uuid entropy is the environment's `uuidHex`. -/
def generate_transaction_id (uuidHex : String) : String :=
  "TXN" ++ uuidHex

/-- Model of `_generate_timestamp(days_back=30)`: `end = now`, `start = end - 30 days`,
plus `random.randint(0, int((end-start).total_seconds()))` seconds.
The inclusive `randint(0, total)` draw is the raw `rand` reduced
modulo `total + 1`. -/
def generate_timestamp (now rand : Nat) : Nat :=
  (now - 30 * 86400) + rand % (30 * 86400 + 1)

/-- Model of `datetime.hour` of a timestamp in seconds. -/
def hourOf (ts : Nat) : Nat := ts / 3600 % 24

/-- Model of `datetime.weekday()`: Monday = 0 … Sunday = 6 (epoch day 0 is a Thursday). -/
def weekdayOf (ts : Nat) : Nat := (ts / 86400 + 3) % 7

/-- Model of `strftime('%A')` weekday names, indexed by `weekday()`. -/
def DAY_NAMES : List String :=
  ["Monday", "Tuesday", "Wednesday", "Thursday", "Friday", "Saturday", "Sunday"]

/-- Result of `_calculate_derived_fields`. -/
structure Derived where
  hour_of_day : Nat
  day_of_week : String
  is_weekend : Nat
deriving DecidableEq

/-- Model of `_calculate_derived_fields(timestamp)`. -/
def calculate_derived_fields (timestamp : Nat) : Derived :=
  { hour_of_day := hourOf timestamp
    day_of_week := DAY_NAMES.getD (weekdayOf timestamp) ""
    is_weekend := if 5 ≤ weekdayOf timestamp then 1 else 0 }

/-- Model of `_weighted_choice(options, weights)`: `random.choices(options,
weights=weights, k=1)[0]`.  All weight tables in the source are
positive, so the draw can select any index; it is modelled as the
selected index (the weights shape only the distribution). -/
def weighted_choice (options : List String) (weights : List ℚ) (i : Nat) : String :=
  pychoice options i

/-- The `(min_amt, max_amt)` pair `_generate_amount` ends up with after
its `transaction_type` adjustment of the `AMOUNT_RANGES` lookup
(the same branch order as the source; `P2P` passes). -/
def amountBounds (device_type transaction_type : String) : ℚ × ℚ :=
  if transaction_type = "Recharge" then
    (10, pymin (AMOUNT_RANGES device_type).2 2000)
  else if transaction_type = "Bill Payment" then
    (100, pymin (AMOUNT_RANGES device_type).2 50000)
  else if transaction_type = "P2P" then
    AMOUNT_RANGES device_type
  else if transaction_type = "P2M" then
    (20, pymin (AMOUNT_RANGES device_type).2 30000)
  else
    AMOUNT_RANGES device_type

/-- Model of `_generate_amount(device_type, transaction_type)`: the log-normal
draw (abstracted as the raw rational `raw`; its `mean`/`sigma`
parameters shape only the distribution) clipped into the adjusted
bounds and rounded to 2 decimals. -/
def generate_amount (device_type transaction_type : String) (raw : ℚ) : ℚ :=
  round2 (pyclip raw (amountBounds device_type transaction_type).1
    (amountBounds device_type transaction_type).2)

/-- Model of `_determine_failure_status(transaction_type, is_weekend)`;
`u` is the `random.random()` draw. -/
def determine_failure_status (transaction_type : String) (is_weekend : Bool) (u : ℚ) : String :=
  let failure_rate :=
    if transaction_type = "Bill Payment" ∧ is_weekend then WEEKEND_BILLPAY_FAILURE_RATE
    else BASE_FAILURE_RATE
  if u < failure_rate then "FAILED" else "SUCCESS"

/-- Model of `_determine_fraud_flag(amount)`; `u` is the `random.random()` draw. -/
def determine_fraud_flag (amount : ℚ) (u : ℚ) : Nat :=
  let fraud_rate :=
    if HIGH_VALUE_THRESHOLD < amount then HIGH_VALUE_FRAUD_RATE
    else BASE_FRAUD_RATE
  if u < fraud_rate then 1 else 0

/-- Model of `_get_merchant_category(transaction_type)`. -/
def get_merchant_category (transaction_type : String) (i : Nat) : Option String :=
  if transaction_type = "P2P" then none
  else some (pychoice ((MERCHANT_CATEGORY_BY_TYPE transaction_type).getD MERCHANT_CATEGORIES) i)

/-- Model of `_get_receiver_age_group(transaction_type)`. -/
def get_receiver_age_group (transaction_type : String) (i : Nat) : Option String :=
  if transaction_type = "P2P" then
    some (weighted_choice AGE_GROUPS AGE_GROUP_WEIGHTS i)
  else none

/-- Model of `generate_single_transaction()`. -/
def generate_single_transaction (env : RecordEnv) : Row :=
  let timestamp := generate_timestamp env.now env.d.tsRand
  let transaction_type :=
    weighted_choice TRANSACTION_TYPES TRANSACTION_TYPE_WEIGHTS env.d.txTypeIdx
  let device_type := weighted_choice DEVICE_TYPES DEVICE_WEIGHTS env.d.deviceIdx
  let derived := calculate_derived_fields timestamp
  let is_weekend : Bool := derived.is_weekend == 1
  let amount := generate_amount device_type transaction_type env.d.amountRaw
  { transaction_id := generate_transaction_id env.uuidHex
    timestamp := timestamp
    transaction_type := transaction_type
    merchant_category := get_merchant_category transaction_type env.d.merchantIdx
    amount_inr := amount
    transaction_status := determine_failure_status transaction_type is_weekend env.d.statusU
    sender_age_group := weighted_choice AGE_GROUPS AGE_GROUP_WEIGHTS env.d.senderAgeIdx
    receiver_age_group := get_receiver_age_group transaction_type env.d.receiverAgeIdx
    sender_state := weighted_choice INDIAN_STATES STATE_WEIGHTS env.d.stateIdx
    sender_bank := weighted_choice BANKS BANK_WEIGHTS env.d.senderBankIdx
    receiver_bank := weighted_choice BANKS BANK_WEIGHTS env.d.receiverBankIdx
    device_type := device_type
    network_type := weighted_choice NETWORK_TYPES NETWORK_WEIGHTS env.d.networkIdx
    fraud_flag := determine_fraud_flag amount env.d.fraudU
    hour_of_day := derived.hour_of_day
    day_of_week := derived.day_of_week
    is_weekend := derived.is_weekend }

/-- The dict keys of every generated record, i.e. the columns
`pd.DataFrame(transactions)` ends up with when `transactions` is
non-empty (an empty list yields a frame with no columns at all). -/
def rowColumns : List String :=
  ["transaction_id", "timestamp", "transaction_type", "merchant_category", "amount_inr",
   "transaction_status", "sender_age_group", "receiver_age_group", "sender_state",
   "sender_bank", "receiver_bank", "device_type", "network_type", "fraud_flag",
   "hour_of_day", "day_of_week", "is_weekend"]

/-- Model of `df.sort_values('timestamp')` — insertion sort on the timestamp key. -/
def insertByTimestamp (r : Row) : List Row → List Row
  | [] => [r]
  | x :: xs =>
    if r.timestamp ≤ x.timestamp then r :: x :: xs else x :: insertByTimestamp r xs

def sortByTimestamp : List Row → List Row
  | [] => []
  | r :: rs => insertByTimestamp r (sortByTimestamp rs)

/-- Model of `generate_data(num_rows)`: builds the record list, wraps it in a
`DataFrame` and sorts by `'timestamp'`.  `pd.DataFrame([])` has no
columns, so `sort_values('timestamp')` raises `KeyError` — modelled as
`Except.error`.  The `reset_index`/`astype`/`to_datetime` normalisation
steps are value-preserving on this representation. -/
def generate_data (env : Nat → RecordEnv) (num_rows : Nat) : Except String (List Row) :=
  let transactions := (List.range num_rows).map (fun i => generate_single_transaction (env i))
  let columns := if transactions.isEmpty then ([] : List String) else rowColumns
  if columns.contains "timestamp" then
    Except.ok (sortByTimestamp transactions)
  else
    Except.error "KeyError: timestamp"

/-- The three entries of the `non_p2p_types` list in `validate_data`. -/
def nonP2PTypes : List String := ["P2M", "Bill Payment", "Recharge"]

/-- Model of `validate_data(df)`: the four independent rule checks, each
appending one aggregated message (with the count of offending rows)
when its filtered slice is non-empty. -/
def validate_data (df : List Row) : List String :=
  let n1 := (df.filter (fun r => r.transaction_type == "P2P" && r.merchant_category.isSome)).length
  let e1 : List String :=
    if 0 < n1 then
      ["Rule A violated: " ++ toString n1 ++ " P2P transactions have non-null merchant_category"]
    else []
  let n2 := (df.filter (fun r => r.transaction_type == "P2P" && r.receiver_age_group.isNone)).length
  let e2 : List String :=
    if 0 < n2 then
      ["Rule A violated: " ++ toString n2 ++ " P2P transactions have null receiver_age_group"]
    else []
  let n3 := (df.filter
      (fun r => nonP2PTypes.contains r.transaction_type && r.receiver_age_group.isSome)).length
  let e3 : List String :=
    if 0 < n3 then
      ["Rule B violated: " ++ toString n3 ++ " non-P2P transactions have non-null receiver_age_group"]
    else []
  let n4 := (df.filter
      (fun r => nonP2PTypes.contains r.transaction_type && r.merchant_category.isNone)).length
  let e4 : List String :=
    if 0 < n4 then
      ["Rule B violated: " ++ toString n4 ++ " non-P2P transactions have null merchant_category"]
    else []
  e1 ++ e2 ++ e3 ++ e4

/-! ## Helper lemmas -/

lemma getD_mem_of_lt : ∀ (l : List String) (n : Nat), n < l.length → l.getD n "" ∈ l
  | a :: l, 0, _ => List.mem_cons_self a l
  | a :: l, n + 1, h =>
    List.mem_cons_of_mem a (getD_mem_of_lt l n (Nat.lt_of_succ_lt_succ h))

lemma pychoice_mem (l : List String) (i : Nat) (h : l ≠ []) : pychoice l i ∈ l :=
  getD_mem_of_lt l _ (Nat.mod_lt i (List.length_pos.mpr h))

lemma ratFloor_eq_intFloor (y : ℚ) : y.floor = ⌊y⌋ := by
  rw [Rat.floor_def', Rat.floor_def]

lemma roundHalfToEven_cases (y : ℚ) :
    roundHalfToEven y = ⌊y⌋ ∨ roundHalfToEven y = ⌊y⌋ + 1 := by
  unfold roundHalfToEven
  rw [ratFloor_eq_intFloor]
  split_ifs <;> simp

lemma le_roundHalfToEven (n : ℤ) (y : ℚ) (h : (n : ℚ) ≤ y) : n ≤ roundHalfToEven y := by
  have hf : n ≤ ⌊y⌋ := Int.le_floor.mpr h
  rcases roundHalfToEven_cases y with h' | h' <;> omega

lemma roundHalfToEven_le (n : ℤ) (y : ℚ) (h : y ≤ (n : ℚ)) : roundHalfToEven y ≤ n := by
  have hfl : ⌊y⌋ ≤ n := by
    have := Int.floor_le_floor h
    rwa [Int.floor_intCast] at this
  unfold roundHalfToEven
  rw [ratFloor_eq_intFloor]
  split_ifs with h1 h2 h3
  · exact hfl
  all_goals {
    have hlt : (⌊y⌋ : ℚ) < y := by
      have hh := not_lt.mp h1
      have hhalf : (mkRat 1 2 : ℚ) = 1/2 := by
        norm_num [Rat.mkRat_eq_divInt, Rat.divInt_eq_div]
      rw [hhalf] at hh
      linarith
    have hn : ⌊y⌋ < n := by exact_mod_cast hlt.trans_le h
    omega }

lemma round2_bounds (L H : ℤ) (x : ℚ) (h1 : (L : ℚ) ≤ x) (h2 : x ≤ (H : ℚ)) :
    (L : ℚ) ≤ round2 x ∧ round2 x ≤ (H : ℚ) := by
  unfold round2
  have hmk : mkRat (roundHalfToEven (100 * x)) 100 =
      (roundHalfToEven (100 * x) : ℚ) / 100 := by
    norm_num [Rat.mkRat_eq_divInt, Rat.divInt_eq_div]
  rw [hmk]
  constructor
  · rw [le_div_iff (by norm_num : (0 : ℚ) < 100)]
    have hkey : (100 * L : ℤ) ≤ roundHalfToEven (100 * x) := by
      apply le_roundHalfToEven
      push_cast
      linarith
    calc (L : ℚ) * 100 = ((100 * L : ℤ) : ℚ) := by push_cast; ring
      _ ≤ (roundHalfToEven (100 * x) : ℚ) := by exact_mod_cast hkey
  · rw [div_le_iff (by norm_num : (0 : ℚ) < 100)]
    have hkey : roundHalfToEven (100 * x) ≤ (100 * H : ℤ) := by
      apply roundHalfToEven_le
      push_cast
      linarith
    calc (roundHalfToEven (100 * x) : ℚ) ≤ ((100 * H : ℤ) : ℚ) := by exact_mod_cast hkey
      _ = (H : ℚ) * 100 := by push_cast; ring

lemma pymin_eq_min (a b : ℚ) : pymin a b = min a b := by
  rw [pymin, min_def]

lemma pymax_eq_max (a b : ℚ) : pymax a b = max a b := by
  rw [pymax, max_def]

lemma pyclip_bounds (x lo hi : ℚ) (h : lo ≤ hi) :
    lo ≤ pyclip x lo hi ∧ pyclip x lo hi ≤ hi := by
  unfold pyclip
  rw [pymin_eq_min, pymax_eq_max]
  exact ⟨le_min (le_max_right x lo) h, min_le_right _ _⟩

lemma mkRat_half : (mkRat 1 2 : ℚ) = 1/2 := by
  norm_num [Rat.mkRat_eq_divInt, Rat.divInt_eq_div]

lemma pyclip_below (x lo hi : ℚ) (h1 : x ≤ lo) (h2 : lo ≤ hi) : pyclip x lo hi = lo := by
  unfold pyclip pymax pymin
  rw [if_pos h1, if_pos h2]

/-- Model of `round(·, 2)` fixes integers. -/
lemma round2_intCast (n : ℤ) : round2 ((n : ℚ)) = (n : ℚ) := by
  have hcast : (100 : ℚ) * (n : ℚ) = ((100 * n : ℤ) : ℚ) := by push_cast; ring
  have hfl : ((100 : ℚ) * (n : ℚ)).floor = 100 * n := by
    rw [ratFloor_eq_intFloor, hcast, Int.floor_intCast]
  unfold round2 roundHalfToEven
  rw [hfl]
  have hzero : (100 : ℚ) * (n : ℚ) - ((100 * n : ℤ) : ℚ) = 0 := by push_cast; ring
  rw [hzero]
  rw [if_pos (show (0 : ℚ) < mkRat 1 2 from by rw [mkRat_half]; norm_num)]
  rw [Rat.mkRat_eq_divInt, Rat.divInt_eq_div]
  push_cast
  field_simp

/-- Every adjusted bounds pair is a pair of integers with min ≤ max. -/
lemma amountBounds_spec (device_type transaction_type : String) :
    ∃ L H : ℤ, amountBounds device_type transaction_type = ((L : ℚ), (H : ℚ)) ∧ L ≤ H := by
  unfold amountBounds AMOUNT_RANGES
  split_ifs <;>
    first
      | (refine ⟨10, 2000, ?_, ?_⟩ <;> norm_num [Prod.ext_iff, pymin] <;> done)
      | (refine ⟨100, 25000, ?_, ?_⟩ <;> norm_num [Prod.ext_iff, pymin] <;> done)
      | (refine ⟨100, 45000, ?_, ?_⟩ <;> norm_num [Prod.ext_iff, pymin] <;> done)
      | (refine ⟨100, 50000, ?_, ?_⟩ <;> norm_num [Prod.ext_iff, pymin] <;> done)
      | (refine ⟨10, 25000, ?_, ?_⟩ <;> norm_num [Prod.ext_iff, pymin] <;> done)
      | (refine ⟨50, 45000, ?_, ?_⟩ <;> norm_num [Prod.ext_iff, pymin] <;> done)
      | (refine ⟨100, 75000, ?_, ?_⟩ <;> norm_num [Prod.ext_iff, pymin] <;> done)
      | (refine ⟨20, 25000, ?_, ?_⟩ <;> norm_num [Prod.ext_iff, pymin] <;> done)
      | (refine ⟨20, 30000, ?_, ?_⟩ <;> norm_num [Prod.ext_iff, pymin] <;> done)

/-- The amount `_generate_amount` produces always lies inside the
adjusted `(min_amt, max_amt)` bounds it computed. -/
lemma generate_amount_bounds (device_type transaction_type : String) (raw : ℚ) :
    (amountBounds device_type transaction_type).1
        ≤ generate_amount device_type transaction_type raw ∧
      generate_amount device_type transaction_type raw
        ≤ (amountBounds device_type transaction_type).2 := by
  obtain ⟨L, H, hb, hLH⟩ := amountBounds_spec device_type transaction_type
  have hLH' : (L : ℚ) ≤ (H : ℚ) := by exact_mod_cast hLH
  obtain ⟨hc1, hc2⟩ := pyclip_bounds raw (L : ℚ) (H : ℚ) hLH'
  have hr := round2_bounds L H _ hc1 hc2
  unfold generate_amount
  rw [hb]
  exact hr

/-! ## Field-level views of `generate_single_transaction` -/

lemma gst_timestamp (env : RecordEnv) :
    (generate_single_transaction env).timestamp =
      generate_timestamp env.now env.d.tsRand := rfl

lemma gst_transaction_type (env : RecordEnv) :
    (generate_single_transaction env).transaction_type =
      weighted_choice TRANSACTION_TYPES TRANSACTION_TYPE_WEIGHTS env.d.txTypeIdx := rfl

lemma gst_merchant_category (env : RecordEnv) :
    (generate_single_transaction env).merchant_category =
      get_merchant_category (generate_single_transaction env).transaction_type
        env.d.merchantIdx := rfl

lemma gst_receiver_age_group (env : RecordEnv) :
    (generate_single_transaction env).receiver_age_group =
      get_receiver_age_group (generate_single_transaction env).transaction_type
        env.d.receiverAgeIdx := rfl

lemma gst_transaction_status (env : RecordEnv) :
    (generate_single_transaction env).transaction_status =
      determine_failure_status (generate_single_transaction env).transaction_type
        ((calculate_derived_fields (generate_single_transaction env).timestamp).is_weekend == 1)
        env.d.statusU := rfl

/-! ## C1 — nullability duality -/

/-- C1: for every generated row, whatever the randomness,
`transaction_type = "P2P"` holds iff `merchant_category` is null, and
iff `receiver_age_group` is non-null; the branch of
`_get_merchant_category` / `_get_receiver_age_group` on the type alone
decides presence, randomness only the present value. -/
theorem nullability_duality (env : RecordEnv) :
    ((generate_single_transaction env).transaction_type = "P2P" ↔
      (generate_single_transaction env).merchant_category = none) ∧
    ((generate_single_transaction env).transaction_type = "P2P" ↔
      (generate_single_transaction env).receiver_age_group.isSome = true) := by
  rw [gst_merchant_category env, gst_receiver_age_group env]
  unfold get_merchant_category get_receiver_age_group
  split_ifs with h <;> simp [h]

/-! ## C5 — derived-field consistency -/

/-- C5: recomputing `_calculate_derived_fields` from a generated row's
stored timestamp returns exactly the row's stored `hour_of_day`,
`day_of_week` and `is_weekend`. -/
theorem derived_fields_consistent (env : RecordEnv) :
    calculate_derived_fields (generate_single_transaction env).timestamp =
      { hour_of_day := (generate_single_transaction env).hour_of_day
        day_of_week := (generate_single_transaction env).day_of_week
        is_weekend := (generate_single_transaction env).is_weekend } := rfl

/-! ## C9 — implicit merchant-category restriction -/

lemma get_merchant_category_billpay (i : Nat) :
    get_merchant_category "Bill Payment" i = some "Utilities" := by
  have h1 : ¬("Bill Payment" = "P2P") := by decide
  have h2 : (MERCHANT_CATEGORY_BY_TYPE "Bill Payment").getD MERCHANT_CATEGORIES =
      ["Utilities"] := by decide
  unfold get_merchant_category
  rw [if_neg h1, h2]
  simp [pychoice, Nat.mod_one]

lemma get_merchant_category_recharge (i : Nat) :
    get_merchant_category "Recharge" i = some "Utilities" := by
  have h1 : ¬("Recharge" = "P2P") := by decide
  have h2 : (MERCHANT_CATEGORY_BY_TYPE "Recharge").getD MERCHANT_CATEGORIES =
      ["Utilities"] := by decide
  unfold get_merchant_category
  rw [if_neg h1, h2]
  simp [pychoice, Nat.mod_one]

lemma get_merchant_category_p2m (i : Nat) :
    get_merchant_category "P2M" i = some "Food" ∨
    get_merchant_category "P2M" i = some "Grocery" ∨
    get_merchant_category "P2M" i = some "Fuel" ∨
    get_merchant_category "P2M" i = some "Entertainment" := by
  have h1 : ¬("P2M" = "P2P") := by decide
  have h2 : (MERCHANT_CATEGORY_BY_TYPE "P2M").getD MERCHANT_CATEGORIES =
      ["Food", "Grocery", "Fuel", "Entertainment"] := by decide
  have hx := pychoice_mem ["Food", "Grocery", "Fuel", "Entertainment"] i (by decide)
  unfold get_merchant_category
  rw [if_neg h1, h2]
  simp only [List.mem_cons, List.not_mem_nil, or_false] at hx
  rcases hx with hx | hx | hx | hx <;> rw [hx] <;> simp

/-- C9: `Bill Payment` and `Recharge` rows always carry exactly the
merchant category `"Utilities"`; `P2M` rows carry one of `Food`,
`Grocery`, `Fuel`, `Entertainment` and never `"Utilities"`. -/
theorem merchant_category_restriction (env : RecordEnv) :
    (((generate_single_transaction env).transaction_type = "Bill Payment" ∨
        (generate_single_transaction env).transaction_type = "Recharge") →
      (generate_single_transaction env).merchant_category = some "Utilities") ∧
    ((generate_single_transaction env).transaction_type = "P2M" →
      ((generate_single_transaction env).merchant_category ∈
          [some "Food", some "Grocery", some "Fuel", some "Entertainment"] ∧
        (generate_single_transaction env).merchant_category ≠ some "Utilities")) := by
  constructor
  · intro h
    rw [gst_merchant_category env]
    rcases h with h | h <;> rw [h]
    · exact get_merchant_category_billpay env.d.merchantIdx
    · exact get_merchant_category_recharge env.d.merchantIdx
  · intro h
    rw [gst_merchant_category env, h]
    rcases get_merchant_category_p2m env.d.merchantIdx with hx | hx | hx | hx <;>
      rw [hx] <;> exact ⟨by simp, by simp⟩

/-- C9 witness: a concrete environment whose record is a Bill Payment
with merchant category `"Utilities"`. -/
def c9Env : RecordEnv :=
  { now := 1760227200
    uuidHex := "0123456789AB"
    d := { tsRand := 0, txTypeIdx := 2, deviceIdx := 0, amountRaw := 500, statusU := mkRat 1 2,
           merchantIdx := 0, senderAgeIdx := 0, receiverAgeIdx := 0, stateIdx := 0,
           senderBankIdx := 0, receiverBankIdx := 0, networkIdx := 0, fraudU := mkRat 1 2 } }

theorem merchant_category_restriction_witness :
    (generate_single_transaction c9Env).transaction_type = "Bill Payment" ∧
    (generate_single_transaction c9Env).merchant_category = some "Utilities" :=
  ⟨by decide, (merchant_category_restriction c9Env).1 (Or.inl (by decide))⟩

lemma amountBounds_iOS_Recharge :
    amountBounds "iOS" "Recharge" = ((10 : ℚ), (2000 : ℚ)) := by
  have h1 : ("iOS" = "Android") = False := eq_false (by decide)
  norm_num [amountBounds, AMOUNT_RANGES, pymin, h1]

lemma amountBounds_iOS_P2M :
    amountBounds "iOS" "P2M" = ((20 : ℚ), (30000 : ℚ)) := by
  have h1 : ("iOS" = "Android") = False := eq_false (by decide)
  have h2 : ("P2M" = "Recharge") = False := eq_false (by decide)
  have h3 : ("P2M" = "Bill Payment") = False := eq_false (by decide)
  have h4 : ("P2M" = "P2P") = False := eq_false (by decide)
  norm_num [amountBounds, AMOUNT_RANGES, pymin, h1, h2, h3, h4]

lemma amountBounds_iOS_BillPayment :
    amountBounds "iOS" "Bill Payment" = ((100 : ℚ), (45000 : ℚ)) := by
  have h1 : ("iOS" = "Android") = False := eq_false (by decide)
  have h2 : ("Bill Payment" = "Recharge") = False := eq_false (by decide)
  norm_num [amountBounds, AMOUNT_RANGES, pymin, h1, h2]

lemma amountBounds_iOS_P2P :
    amountBounds "iOS" "P2P" = ((50 : ℚ), (45000 : ℚ)) := by
  have h1 : ("iOS" = "Android") = False := eq_false (by decide)
  have h2 : ("P2P" = "Recharge") = False := eq_false (by decide)
  have h3 : ("P2P" = "Bill Payment") = False := eq_false (by decide)
  norm_num [amountBounds, AMOUNT_RANGES, pymin, h1, h2, h3]

lemma amountBounds_web_recharge :
    amountBounds "Web" "Recharge" = ((10 : ℚ), (2000 : ℚ)) := by
  have h1 : ("Web" = "Android") = False := eq_false (by decide)
  have h2 : ("Web" = "iOS") = False := eq_false (by decide)
  norm_num [amountBounds, AMOUNT_RANGES, pymin, h1, h2]

/-! ## C4 — range containment -/

/-- Modelled from the claim's words (C4): the device bounds "narrowed"
by transaction type — `Recharge` only caps at 2,000; `Bill Payment`
floors at 100 and caps at 50,000; `P2M` floors at 20 and caps at
30,000; `P2P` keeps the device bounds.  For comparison with
`amountBounds`, which is what the source actually computes (the source
*replaces* the floor instead of narrowing it). -/
def claimNarrowedBounds (device_type transaction_type : String) : ℚ × ℚ :=
  if transaction_type = "Recharge" then
    ((AMOUNT_RANGES device_type).1, pymin (AMOUNT_RANGES device_type).2 2000)
  else if transaction_type = "Bill Payment" then
    (pymax (AMOUNT_RANGES device_type).1 100, pymin (AMOUNT_RANGES device_type).2 50000)
  else if transaction_type = "P2M" then
    (pymax (AMOUNT_RANGES device_type).1 20, pymin (AMOUNT_RANGES device_type).2 30000)
  else AMOUNT_RANGES device_type

/-- C4 counterexample environment: a Web `Recharge` with a tiny
log-normal draw; the source clips to the replaced floor 10.0, below
the Web device floor 100 that the claimed narrowing would keep. -/
def c4Env : RecordEnv :=
  { now := 1760227200
    uuidHex := "0123456789AB"
    d := { tsRand := 0, txTypeIdx := 3, deviceIdx := 2, amountRaw := mkRat 1 2, statusU := mkRat 1 2,
           merchantIdx := 0, senderAgeIdx := 0, receiverAgeIdx := 0, stateIdx := 0,
           senderBankIdx := 0, receiverBankIdx := 0, networkIdx := 0, fraudU := mkRat 1 2 } }

lemma claimNarrowedBounds_web_recharge :
    claimNarrowedBounds "Web" "Recharge" = ((100 : ℚ), (2000 : ℚ)) := by
  have h1 : ("Web" = "Android") = False := eq_false (by decide)
  have h2 : ("Web" = "iOS") = False := eq_false (by decide)
  norm_num [claimNarrowedBounds, AMOUNT_RANGES, pymin, h1, h2]

lemma generate_amount_web_recharge_small :
    generate_amount "Web" "Recharge" (mkRat 1 2) = 10 := by
  unfold generate_amount
  rw [amountBounds_web_recharge]
  show round2 (pyclip (mkRat 1 2) 10 2000) = 10
  rw [pyclip_below (mkRat 1 2) 10 2000 (by rw [mkRat_half]; norm_num) (by norm_num)]
  rw [show (10 : ℚ) = ((10 : ℤ) : ℚ) from by norm_num, round2_intCast]

/-- C4 counterexample: a generated Web/`Recharge` row whose
`amount_inr` (10.0) falls outside the claim's narrowed range
`[100, 2000]` for that `(device_type, transaction_type)` pair. -/
theorem amount_range_claim_counterexample :
    (generate_single_transaction c4Env).device_type = "Web" ∧
    (generate_single_transaction c4Env).transaction_type = "Recharge" ∧
    ¬((claimNarrowedBounds "Web" "Recharge").1
          ≤ (generate_single_transaction c4Env).amount_inr ∧
        (generate_single_transaction c4Env).amount_inr
          ≤ (claimNarrowedBounds "Web" "Recharge").2) := by
  refine ⟨rfl, rfl, ?_⟩
  intro hcon
  have h0 : (generate_single_transaction c4Env).amount_inr
      = generate_amount "Web" "Recharge" (mkRat 1 2) := rfl
  rw [h0, generate_amount_web_recharge_small, claimNarrowedBounds_web_recharge] at hcon
  have h100 : (100 : ℚ) ≤ 10 := hcon.1
  norm_num at h100

/-- C4 (amended): every generated row's `amount_inr` lies within the
bounds the source actually computes for its `(device_type,
transaction_type)` pair — the device cap is narrowed by the type cap,
but the type floor *replaces* the device floor (Recharge 10, Bill
Payment 100, P2M 20; P2P keeps the device bounds). -/
theorem amount_range_containment (env : RecordEnv) :
    (amountBounds (generate_single_transaction env).device_type
        (generate_single_transaction env).transaction_type).1
      ≤ (generate_single_transaction env).amount_inr ∧
    (generate_single_transaction env).amount_inr
      ≤ (amountBounds (generate_single_transaction env).device_type
        (generate_single_transaction env).transaction_type).2 :=
  generate_amount_bounds _ _ _

/-! ## C3 — iOS bounds edge case -/

/-- C3 counterexample environment: an iOS `Recharge` with a tiny
log-normal draw; `_generate_amount` sets `min_amt = 10.0` for
`Recharge`, discarding the iOS floor 50.0, and clips to 10.0. -/
def c3Env : RecordEnv :=
  { now := 1760227200
    uuidHex := "0123456789AB"
    d := { tsRand := 0, txTypeIdx := 3, deviceIdx := 1, amountRaw := mkRat 1 2, statusU := mkRat 1 2,
           merchantIdx := 0, senderAgeIdx := 0, receiverAgeIdx := 0, stateIdx := 0,
           senderBankIdx := 0, receiverBankIdx := 0, networkIdx := 0, fraudU := mkRat 1 2 } }

lemma generate_amount_ios_recharge_small :
    generate_amount "iOS" "Recharge" (mkRat 1 2) = 10 := by
  unfold generate_amount
  rw [amountBounds_iOS_Recharge]
  show round2 (pyclip (mkRat 1 2) 10 2000) = 10
  rw [pyclip_below (mkRat 1 2) 10 2000 (by rw [mkRat_half]; norm_num) (by norm_num)]
  rw [show (10 : ℚ) = ((10 : ℤ) : ℚ) from by norm_num, round2_intCast]

/-- C3 counterexample: a generated iOS row whose `amount_inr` is below
50.0 (an iOS `Recharge` clipped to the replaced floor 10.0). -/
theorem ios_floor_claim_counterexample :
    (generate_single_transaction c3Env).device_type = "iOS" ∧
    (generate_single_transaction c3Env).transaction_type = "Recharge" ∧
    (generate_single_transaction c3Env).amount_inr < 50 := by
  refine ⟨rfl, rfl, ?_⟩
  have h0 : (generate_single_transaction c3Env).amount_inr
      = generate_amount "iOS" "Recharge" (mkRat 1 2) := rfl
  rw [h0, generate_amount_ios_recharge_small]
  norm_num

/-- C3 (amended): for every generated iOS row, `amount_inr` is never
below the type-replaced floor (10 for Recharge, 20 for P2M, 100 for
Bill Payment, 50 for P2P) and never above the type-narrowed ceiling
(2,000 for Recharge, 30,000 for P2M, 45,000 for Bill Payment and P2P,
the iOS device ceiling being 45,000). -/
theorem ios_amount_bounds (env : RecordEnv)
    (h : (generate_single_transaction env).device_type = "iOS") :
    ((generate_single_transaction env).transaction_type = "Recharge" →
      10 ≤ (generate_single_transaction env).amount_inr ∧
        (generate_single_transaction env).amount_inr ≤ 2000) ∧
    ((generate_single_transaction env).transaction_type = "P2M" →
      20 ≤ (generate_single_transaction env).amount_inr ∧
        (generate_single_transaction env).amount_inr ≤ 30000) ∧
    ((generate_single_transaction env).transaction_type = "Bill Payment" →
      100 ≤ (generate_single_transaction env).amount_inr ∧
        (generate_single_transaction env).amount_inr ≤ 45000) ∧
    ((generate_single_transaction env).transaction_type = "P2P" →
      50 ≤ (generate_single_transaction env).amount_inr ∧
        (generate_single_transaction env).amount_inr ≤ 45000) := by
  have hb : (amountBounds (generate_single_transaction env).device_type
      (generate_single_transaction env).transaction_type).1
        ≤ (generate_single_transaction env).amount_inr ∧
      (generate_single_transaction env).amount_inr
        ≤ (amountBounds (generate_single_transaction env).device_type
          (generate_single_transaction env).transaction_type).2 :=
    generate_amount_bounds _ _ _
  rw [h] at hb
  refine ⟨fun ht => ?_, fun ht => ?_, fun ht => ?_, fun ht => ?_⟩ <;> rw [ht] at hb
  · rw [amountBounds_iOS_Recharge] at hb; exact hb
  · rw [amountBounds_iOS_P2M] at hb; exact hb
  · rw [amountBounds_iOS_BillPayment] at hb; exact hb
  · rw [amountBounds_iOS_P2P] at hb; exact hb

/-- C3 witness environment: an iOS P2P record. -/
def c3WitnessEnv : RecordEnv :=
  { now := 1760227200
    uuidHex := "0123456789AB"
    d := { tsRand := 0, txTypeIdx := 0, deviceIdx := 1, amountRaw := 700, statusU := mkRat 1 2,
           merchantIdx := 0, senderAgeIdx := 0, receiverAgeIdx := 0, stateIdx := 0,
           senderBankIdx := 0, receiverBankIdx := 0, networkIdx := 0, fraudU := mkRat 1 2 } }

theorem ios_amount_bounds_witness :
    (generate_single_transaction c3WitnessEnv).device_type = "iOS" ∧
    (((generate_single_transaction c3WitnessEnv).transaction_type = "Recharge" →
        10 ≤ (generate_single_transaction c3WitnessEnv).amount_inr ∧
          (generate_single_transaction c3WitnessEnv).amount_inr ≤ 2000) ∧
      ((generate_single_transaction c3WitnessEnv).transaction_type = "P2M" →
        20 ≤ (generate_single_transaction c3WitnessEnv).amount_inr ∧
          (generate_single_transaction c3WitnessEnv).amount_inr ≤ 30000) ∧
      ((generate_single_transaction c3WitnessEnv).transaction_type = "Bill Payment" →
        100 ≤ (generate_single_transaction c3WitnessEnv).amount_inr ∧
          (generate_single_transaction c3WitnessEnv).amount_inr ≤ 45000) ∧
      ((generate_single_transaction c3WitnessEnv).transaction_type = "P2P" →
        50 ≤ (generate_single_transaction c3WitnessEnv).amount_inr ∧
          (generate_single_transaction c3WitnessEnv).amount_inr ≤ 45000)) :=
  ⟨rfl, ios_amount_bounds c3WitnessEnv rfl⟩

/-! ## C6 — conditional failure sampling -/

/-- C6: a generated row's `transaction_status` is decided by the single
`random.random()` draw compared against a failure probability that is
exactly 1/5 (= 0.20) when the type is `Bill Payment` and the row's
timestamp falls on a weekend (weekday ≥ 5), and exactly 1/20 (= 0.05)
otherwise; `"FAILED"` iff the draw is below the rate, else `"SUCCESS"`. -/
theorem failure_status_rule (env : RecordEnv) :
    (generate_single_transaction env).transaction_status =
      (if env.d.statusU <
          (if (generate_single_transaction env).transaction_type = "Bill Payment" ∧
              5 ≤ weekdayOf (generate_single_transaction env).timestamp
            then (1/5 : ℚ) else (1/20 : ℚ))
        then "FAILED" else "SUCCESS") := by
  have e1 : WEEKEND_BILLPAY_FAILURE_RATE = (1/5 : ℚ) := by
    norm_num [WEEKEND_BILLPAY_FAILURE_RATE, Rat.mkRat_eq_divInt, Rat.divInt_eq_div]
  have e2 : BASE_FAILURE_RATE = (1/20 : ℚ) := by
    norm_num [BASE_FAILURE_RATE, Rat.mkRat_eq_divInt, Rat.divInt_eq_div]
  rw [gst_transaction_status env]
  unfold determine_failure_status calculate_derived_fields
  by_cases hw : 5 ≤ weekdayOf (generate_single_transaction env).timestamp <;>
    simp only [hw, if_true, if_false, ite_true, ite_false, beq_self_eq_true, beq_iff_eq,
      and_true, and_false, e1, e2] <;>
    by_cases ht : (generate_single_transaction env).transaction_type = "Bill Payment" <;>
    simp [ht, e1, e2]

/-! ## C8 — N = 0 boundary -/

/-- C8: `generate_data(0)` never returns a table: the empty
`pd.DataFrame` has no columns, so `sort_values('timestamp')` raises
`KeyError` — the N = 0 input is rejected (by an uncaught exception)
rather than producing a table. -/
theorem generate_data_zero_rejected (env : Nat → RecordEnv) :
    generate_data env 0 = Except.error "KeyError: timestamp" := rfl

/-! ## C2 — determinism across runs -/

/-- The seeded draws two runs with the same seed share (both
`random.seed(S)` streams produce identical draw sequences). -/
def c2Draws : Draws :=
  { tsRand := 0, txTypeIdx := 0, deviceIdx := 0, amountRaw := 500, statusU := mkRat 1 2,
    merchantIdx := 0, senderAgeIdx := 0, receiverAgeIdx := 0, stateIdx := 0,
    senderBankIdx := 0, receiverBankIdx := 0, networkIdx := 0, fraudU := mkRat 1 2 }

/-- First run: some `uuid.uuid4()` entropy. -/
def c2RunEnvA : Nat → RecordEnv :=
  fun _ => { now := 1760227200, uuidHex := "0A1B2C3D4E5F", d := c2Draws }

/-- Second run: identical seeded draws and clock, different
`uuid.uuid4()` entropy (`uuid4` reads `os.urandom`, which
`random.seed`/`np.random.seed` do not control). -/
def c2RunEnvB : Nat → RecordEnv :=
  fun _ => { now := 1760227200, uuidHex := "9F8E7D6C5B4A", d := c2Draws }

/-- C2: the generated table is *not* a function of the seeded RNG
stream — two runs with identical seeded draws (and even an identical
clock) but different uuid entropy produce different tables (the
`transaction_id` column differs), refuting byte-identical
reproducibility from the seed alone. -/
theorem same_seed_runs_differ :
    (c2RunEnvA 0).d = (c2RunEnvB 0).d ∧ (c2RunEnvA 0).now = (c2RunEnvB 0).now ∧
    generate_data c2RunEnvA 1 ≠ generate_data c2RunEnvB 1 := by
  refine ⟨rfl, rfl, fun hcontra => ?_⟩
  have h1 : generate_data c2RunEnvA 1 =
      Except.ok [generate_single_transaction (c2RunEnvA 0)] := rfl
  have h2 : generate_data c2RunEnvB 1 =
      Except.ok [generate_single_transaction (c2RunEnvB 0)] := rfl
  rw [h1, h2] at hcontra
  injection hcontra with hlist
  injection hlist with hrow hnil
  have hid := congrArg Row.transaction_id hrow
  exact absurd hid (by decide)

/-! ## C7 — validator completeness and independence -/

/-- A table with a transaction type outside the generator's vocabulary:
neither `== "P2P"` nor in `non_p2p_types`, so `validate_data` checks
nothing about it. -/
def refundRow : Row :=
  { transaction_id := "TXN000000REFUND", timestamp := 1760227200,
    transaction_type := "Refund", merchant_category := none, amount_inr := 500,
    transaction_status := "SUCCESS", sender_age_group := "18-25",
    receiver_age_group := some "18-25", sender_state := "Delhi", sender_bank := "SBI",
    receiver_bank := "SBI", device_type := "Android", network_type := "4G",
    fraud_flag := 0, hour_of_day := 0, day_of_week := "Monday", is_weekend := 0 }

/-- C7 counterexample: on the table `[refundRow]`, `validate_data`
returns no violations although the row breaks two of the claim's four
rules read with "non-P2P" = "type ≠ P2P" (its `receiver_age_group` is
non-null and its `merchant_category` is null while its type is not
P2P): the `isin(non_p2p_types)` filters skip unknown types. -/
theorem validate_data_unknown_type_counterexample :
    validate_data [refundRow] = [] ∧
    ¬((∀ r ∈ [refundRow], r.transaction_type = "P2P" → r.merchant_category = none) ∧
      (∀ r ∈ [refundRow], r.transaction_type = "P2P" → r.receiver_age_group.isSome = true) ∧
      (∀ r ∈ [refundRow], r.transaction_type ≠ "P2P" → r.receiver_age_group = none) ∧
      (∀ r ∈ [refundRow], r.transaction_type ≠ "P2P" → r.merchant_category.isSome = true)) := by
  refine ⟨rfl, fun hcon => ?_⟩
  have hmem : refundRow ∈ [refundRow] := List.mem_singleton.mpr rfl
  have := hcon.2.2.1 refundRow hmem (by decide)
  exact absurd this (by decide)

/-- C7 (amended): `validate_data df` is empty iff all four rules hold,
with "non-P2P" read as the code's explicit list `non_p2p_types =
[P2M, Bill Payment, Recharge]` (rows with other types are not
checked); and the checks are independent: the number of returned
messages equals the number of violated rules, one aggregated message
per violated rule. -/
theorem validate_data_complete (df : List Row) :
    (validate_data df = [] ↔
      ((∀ r ∈ df, r.transaction_type = "P2P" → r.merchant_category = none) ∧
       (∀ r ∈ df, r.transaction_type = "P2P" → r.receiver_age_group.isSome = true) ∧
       (∀ r ∈ df, r.transaction_type ∈ nonP2PTypes → r.receiver_age_group = none) ∧
       (∀ r ∈ df, r.transaction_type ∈ nonP2PTypes → r.merchant_category.isSome = true))) ∧
    (validate_data df).length =
      ((if 0 < (df.filter
            (fun r => r.transaction_type == "P2P" && r.merchant_category.isSome)).length
          then 1 else 0) +
       (if 0 < (df.filter
            (fun r => r.transaction_type == "P2P" && r.receiver_age_group.isNone)).length
          then 1 else 0) +
       (if 0 < (df.filter
            (fun r => nonP2PTypes.contains r.transaction_type &&
              r.receiver_age_group.isSome)).length
          then 1 else 0) +
       (if 0 < (df.filter
            (fun r => nonP2PTypes.contains r.transaction_type &&
              r.merchant_category.isNone)).length
          then 1 else 0)) := by
  constructor
  · unfold validate_data
    simp only [List.append_eq_nil, ite_eq_right_iff, List.cons_ne_nil, imp_false, not_lt,
      Nat.le_zero, List.length_eq_zero, List.filter_eq_nil_iff]
    constructor
    · intro h
      obtain ⟨⟨⟨ha1, ha2⟩, hb1⟩, hb2⟩ := h
      refine ⟨fun r hr ht => ?_, fun r hr ht => ?_, fun r hr ht => ?_, fun r hr ht => ?_⟩
      · have hx := ha1 r hr
        simp only [Bool.and_eq_true, beq_iff_eq, not_and, ht, true_implies] at hx
        exact Option.not_isSome_iff_eq_none.mp hx
      · have hx := ha2 r hr
        simp only [Bool.and_eq_true, beq_iff_eq, not_and, ht, true_implies] at hx
        simpa [Option.isNone_iff_eq_none, ← Option.ne_none_iff_isSome] using hx
      · have hx := hb1 r hr
        simp only [Bool.and_eq_true, List.elem_eq_mem, decide_eq_true_eq, not_and,
          ht, true_implies] at hx
        exact Option.not_isSome_iff_eq_none.mp hx
      · have hx := hb2 r hr
        simp only [Bool.and_eq_true, List.elem_eq_mem, decide_eq_true_eq, not_and,
          ht, true_implies] at hx
        simpa [Option.isNone_iff_eq_none, ← Option.ne_none_iff_isSome] using hx
    · intro h
      obtain ⟨h1, h2, h3, h4⟩ := h
      refine ⟨⟨⟨fun r hr => ?_, fun r hr => ?_⟩, fun r hr => ?_⟩, fun r hr => ?_⟩
      · simp only [Bool.and_eq_true, beq_iff_eq, not_and]
        intro ht
        simp [h1 r hr ht]
      · simp only [Bool.and_eq_true, beq_iff_eq, not_and]
        intro ht
        simp only [Option.isNone_iff_eq_none]
        exact Option.ne_none_iff_isSome.mpr (h2 r hr ht)
      · simp only [Bool.and_eq_true, List.elem_eq_mem, decide_eq_true_eq, not_and]
        intro ht
        simp [h3 r hr ht]
      · simp only [Bool.and_eq_true, List.elem_eq_mem, decide_eq_true_eq, not_and]
        intro ht
        simp only [Option.isNone_iff_eq_none]
        exact Option.ne_none_iff_isSome.mpr (h4 r hr ht)
  · unfold validate_data
    simp only [List.length_append, apply_ite List.length, List.length_singleton,
      List.length_nil]

/-- C7 witness: a valid one-row P2P table on which the amended
characterisation is instantiated. -/
def goodP2PRow : Row :=
  { transaction_id := "TXN000000P2PXX", timestamp := 1760227200,
    transaction_type := "P2P", merchant_category := none, amount_inr := 500,
    transaction_status := "SUCCESS", sender_age_group := "18-25",
    receiver_age_group := some "26-35", sender_state := "Delhi", sender_bank := "SBI",
    receiver_bank := "HDFC", device_type := "Android", network_type := "4G",
    fraud_flag := 0, hour_of_day := 0, day_of_week := "Monday", is_weekend := 0 }

theorem validate_data_complete_witness :
    (validate_data [goodP2PRow] = [] ↔
      ((∀ r ∈ [goodP2PRow], r.transaction_type = "P2P" → r.merchant_category = none) ∧
       (∀ r ∈ [goodP2PRow], r.transaction_type = "P2P" → r.receiver_age_group.isSome = true) ∧
       (∀ r ∈ [goodP2PRow], r.transaction_type ∈ nonP2PTypes → r.receiver_age_group = none) ∧
       (∀ r ∈ [goodP2PRow],
         r.transaction_type ∈ nonP2PTypes → r.merchant_category.isSome = true))) ∧
    (validate_data [goodP2PRow]).length =
      ((if 0 < ([goodP2PRow].filter
            (fun r => r.transaction_type == "P2P" && r.merchant_category.isSome)).length
          then 1 else 0) +
       (if 0 < ([goodP2PRow].filter
            (fun r => r.transaction_type == "P2P" && r.receiver_age_group.isNone)).length
          then 1 else 0) +
       (if 0 < ([goodP2PRow].filter
            (fun r => nonP2PTypes.contains r.transaction_type &&
              r.receiver_age_group.isSome)).length
          then 1 else 0) +
       (if 0 < ([goodP2PRow].filter
            (fun r => nonP2PTypes.contains r.transaction_type &&
              r.merchant_category.isNone)).length
          then 1 else 0)) :=
  validate_data_complete [goodP2PRow]

/-! ## C10 — bounded validator output -/

/-- C10: whatever the table, `validate_data` returns at most four
messages — one aggregated message per rule, never one per row. -/
theorem validate_data_at_most_four (df : List Row) :
    (validate_data df).length ≤ 4 := by
  unfold validate_data
  simp only [List.length_append, apply_ite List.length, List.length_singleton,
    List.length_nil]
  split_ifs <;> simp

end InsightX
